import Mathlib

/-!
Shallow embedding of the PNDA CLI backend orchestration code
(`cli/backend_base.py` and `cli/pnda_cli_utils.py`) and proofs of the
specified properties of its host-orchestration engine.

External collaborators (remote command execution over ssh, file transfer,
the filesystem, wall-clock time) are modelled by explicit oracles passed to
each embedded function; the control flow of each embedded function follows
the Python source line by line.
-/

namespace PndaCli

/-- The bash snippet (`THROW_BASH_ERROR` in `backend_base.py`) appended after
piped remote commands so the pipeline aborts on the real exit code of the
command rather than the exit code of the logging pipe. -/
def THROW_BASH_ERROR : String :=
  "cmd_result=$\x7bPIPESTATUS[0]\x7d && if [ $\x7bcmd_result\x7d != \x270\x27 ]; then exit $\x7bcmd_result\x7d; fi"

/-- The detail-log file name (`LOG_FILE_NAME` in `pnda_cli_utils.py`); its
runtime timestamp suffix is abstracted away as it plays no role in any claim. -/
def LOG_FILE_NAME : String := "logs/pnda-cli.log"

/-- Faithful translation of the thread-set partition in
`_wait_on_host_operations`:
`thread_sets = [thread_list[x:x+n] for x in xrange(0, len(thread_list), n)]`.
The `n = 0` guard only makes the recursion total; Python raises there and all
theorems assume `1 ≤ n`. -/
def chunkList (n : Nat) (l : List α) : List (List α) :=
  match l with
  | [] => []
  | x :: xs =>
    if n = 0 then []
    else (x :: xs).take n :: chunkList n ((x :: xs).drop n)
termination_by l.length
decreasing_by
  rename_i h
  simp only [List.length_drop, List.length_cons]
  omega

/-- One observable scheduling event of `_wait_on_host_operations`: starting a
thread, sleeping for the bastion stagger, or joining a thread. -/
inductive HostEvent (α : Type) where
  | start (op : α)
  | sleep (seconds : Nat)
  | join (op : α)
  deriving DecidableEq, Repr

/-- Extract the operation started by an event, if it is a start event. -/
def startedOp : HostEvent α → Option α
  | HostEvent.start t => some t
  | _ => none

/-- Events of one thread set of `_wait_on_host_operations`: the first loop
starts every thread of the set in order (inserting a fixed 2-second sleep after
each start when a bastion is in use), the second loop joins every thread. -/
def waveTrace (bastion_used : Bool) (w : List α) : List (HostEvent α) :=
  (w.map (fun t => HostEvent.start t :: if bastion_used then [HostEvent.sleep 2] else [])).flatten
    ++ w.map HostEvent.join

/-- Full event trace of `_wait_on_host_operations`: the thread sets run
strictly in sequence. -/
def hostOpsTrace (bastion_used : Bool) (n : Nat) (ops : List α) : List (HostEvent α) :=
  ((chunkList n ops).map (waveTrace bastion_used)).flatten

/-- Model of `_process_thread_errors`: drains the error queue and raises on the
first error found; an empty queue returns normally. -/
def processThreadErrors (action : String) (errors : List String) : Except String Unit :=
  match errors with
  | [] => Except.ok ()
  | e :: _ =>
    Except.error ("Error " ++ action ++ ", error msg: " ++ e ++ ". See debug log ("
      ++ LOG_FILE_NAME ++ ") for details.")

/-- Model of `_wait_on_host_operations`: produce the scheduling trace of the
thread sets, then drain the error queue when one was supplied
(`if errors is not None`). `errors` is the queue content at the final join. -/
def waitOnHostOperations (action : String) (ops : List α) (n : Nat) (bastion_used : Bool)
    (errors : Option (List String)) : Except String (List (HostEvent α)) :=
  match errors with
  | none => Except.ok (hostOpsTrace bastion_used n ops)
  | some errs =>
    match processThreadErrors action errs with
    | Except.ok _ => Except.ok (hostOpsTrace bastion_used n ops)
    | Except.error e => Except.error e

/-- The message `_wait_for_host_connectivity.do_wait` records when it gives up
on a host. -/
def giveUpMsg (host : String) : String :=
  "Giving up waiting for connectivity to " ++ host

/-- The 10-minute connectivity deadline in milliseconds
(`10 * 60 * 1000` in `do_wait`). -/
def CONNECTIVITY_DEADLINE_MS : Nat := 10 * 60 * 1000

/-- Model of the polling loop body of `_wait_for_host_connectivity.do_wait` for
one host. `probe m` tells whether the m-th ssh probe succeeds, `tstart` is the
`MILLI_TIME()` reading taken on loop entry and `tcheck m` the reading at the
deadline check performed after the m-th failed probe (the loop sleeps 2 seconds
before the next probe). Returns the list of errors recorded on the shared
queue, or `none` when `fuel` iterations did not suffice to terminate. -/
def doWaitGo (host : String) (probe : Nat → Bool) (tstart : Nat) (tcheck : Nat → Nat) :
    Nat → Nat → Option (List String)
  | 0, _ => none
  | fuel + 1, m =>
    if probe m then some []
    else if tcheck m - tstart > CONNECTIVITY_DEADLINE_MS then some [giveUpMsg host]
    else doWaitGo host probe tstart tcheck fuel (m + 1)

/-- The polling loop of `do_wait`, started at attempt 0. -/
def doWait (host : String) (probe : Nat → Bool) (tstart : Nat) (tcheck : Nat → Nat)
    (fuel : Nat) : Option (List String) :=
  doWaitGo host probe tstart tcheck fuel 0

/-- The per-host polling loops of `_wait_for_host_connectivity` run
concurrently and only append to the shared error queue; the queue content at
the final join is modelled as the concatenation of each host's own recorded
errors, in input order. `none` when some host's loop did not terminate within
`fuel` iterations. -/
def collectWaitErrors (hosts : List String) (probe : String → Nat → Bool)
    (tstart : String → Nat) (tcheck : String → Nat → Nat) (fuel : Nat) :
    Option (List String) :=
  match hosts with
  | [] => some []
  | h :: rest =>
    match doWait h (probe h) (tstart h) (tcheck h) fuel,
        collectWaitErrors rest probe tstart tcheck fuel with
    | some errs, some restErrs => some (errs ++ restErrs)
    | _, _ => none

/-- Model of `_wait_for_host_connectivity`: run every host's polling loop to
completion, then drain the shared error queue through
`_process_thread_errors`, raising one aggregate error when it is non-empty. -/
def waitForHostConnectivity (hosts : List String) (probe : String → Nat → Bool)
    (tstart : String → Nat) (tcheck : String → Nat → Nat) (fuel : Nat) :
    Option (Except String Unit) :=
  (collectWaitErrors hosts probe tstart tcheck fuel).map
    (processThreadErrors "waiting for host connectivity")

/-- A cluster instance descriptor as used by `_bootstrap`,
`_check_hosts_bootstrapped`, `_install_pnda` and `_expand_pnda`. The
`is_saltmaster` field models the presence of the `"is_saltmaster"` key in the
instance dictionary; `bootstrapped` models the flag of the same name. -/
structure Instance where
  name : String
  private_ip_address : String
  node_type : String
  node_idx : Nat
  is_saltmaster : Bool
  bootstrapped : Bool
  deriving DecidableEq, Repr

/-- The node-role names returned by `load_node_config`
(keys `console-instance`, `bastion-instance`, `salt-master-instance`). -/
structure NodeConfig where
  console_instance : String
  bastion_instance : String
  salt_master_instance : String
  deriving DecidableEq, Repr

/-- The instance map: cluster-qualified name to instance descriptor. -/
abbrev InstanceMap : Type := List (String × Instance)

/-- The volume requirements returned by `_get_volume_info` for a node type;
each field models the presence of the corresponding key in the YAML mapping. -/
structure VolumeInfo where
  partitions : Option (List String)
  volumes : Option (List String)
  deriving DecidableEq, Repr

/-- Role-script resolution in `_bootstrap`: the flavor-specific script when it
exists on disk, otherwise the flavor-independent fallback. -/
def typeScript (flavorScriptExists : Bool) (flavor node_type : String) : String :=
  if flavorScriptExists then "bootstrap-scripts/" ++ flavor ++ "/" ++ node_type ++ ".sh"
  else "bootstrap-scripts/" ++ node_type ++ ".sh"

/-- Whether `_bootstrap` treats the instance as holding the coordinating
(saltmaster) role: its node type names the salt-master instance, or the
instance dictionary carries the `is_saltmaster` key. -/
def isCoordinator (nodeCfg : NodeConfig) (inst : Instance) : Bool :=
  inst.node_type == nodeCfg.salt_master_instance || inst.is_saltmaster

/-- The ordered file-staging list `files_to_scp` built by `_bootstrap`. -/
def filesToScp (nodeCfg : NodeConfig) (inst : Instance) (cluster tscript : String)
    (gitPemExists : Bool) : List String :=
  ["cli/pnda_env_" ++ cluster ++ ".sh",
   "bootstrap-scripts/package-install.sh",
   "bootstrap-scripts/base.sh",
   "bootstrap-scripts/volume-mappings.sh",
   tscript]
  ++ (if isCoordinator nodeCfg inst then
        ["bootstrap-scripts/saltmaster-common.sh"]
          ++ (if gitPemExists then ["git.pem"] else [])
      else [])

/-- The environment-export commands of `_bootstrap` (a `:` no-op stands in for
an export whose tarball reference is absent, exactly as in the source). -/
def exportCmds (saltmaster cluster flavor branch : String)
    (salt_tarball certs_tarball : Option String) : List String :=
  ["export PNDA_SALTMASTER_IP=" ++ saltmaster,
   "export PNDA_CLUSTER=" ++ cluster,
   "export PNDA_FLAVOR=" ++ flavor,
   "export PLATFORM_GIT_BRANCH=" ++ branch,
   (match salt_tarball with
    | some t => "export PLATFORM_SALT_TARBALL=" ++ t
    | none => ":"),
   (match certs_tarball with
    | some t => "export SECURITY_CERTS_TARBALL=" ++ t
    | none => ":")]

/-- The partition/volume persistence commands `_bootstrap` appends when the
role's volume requirements declare them. -/
def diskConfigCmds (requested_volumes : Option VolumeInfo) : List String :=
  match requested_volumes with
  | none => []
  | some v =>
    (match v.partitions with
     | some parts =>
       ["sudo mkdir -p /etc/pnda/disk-config && echo \x27"
         ++ String.intercalate "\n" parts
         ++ "\x27 | sudo tee /etc/pnda/disk-config/partitions"]
     | none => [])
    ++ (match v.volumes with
        | some vols =>
          ["sudo mkdir -p /etc/pnda/disk-config && echo \x27"
            ++ String.intercalate "\n" vols
            ++ "\x27 | sudo tee /etc/pnda/disk-config/requested-volumes"]
        | none => [])

/-- The pipe-to-log wrapper `_bootstrap` uses for each script run. -/
def teeRun (script : String) : String :=
  "(sudo -E " ++ script ++ " 2>&1) | tee -a pnda-bootstrap.log; " ++ THROW_BASH_ERROR

/-- The ordered remote command list `cmds_to_run` built by `_bootstrap`,
append by append in source order. -/
def cmdsToRun (nodeCfg : NodeConfig) (inst : Instance)
    (saltmaster cluster flavor branch : String)
    (salt_tarball certs_tarball : Option String)
    (requested_volumes : Option VolumeInfo) : List String :=
  ["source /tmp/pnda_env_" ++ cluster ++ ".sh"]
  ++ exportCmds saltmaster cluster flavor branch salt_tarball certs_tarball
  ++ ["sudo chmod a+x /tmp/package-install.sh",
      "sudo chmod a+x /tmp/base.sh",
      "sudo chmod a+x /tmp/volume-mappings.sh"]
  ++ diskConfigCmds requested_volumes
  ++ [teeRun "/tmp/base.sh"]
  ++ (if isCoordinator nodeCfg inst then
        ["sudo chmod a+x /tmp/saltmaster-common.sh",
         teeRun "/tmp/saltmaster-common.sh"]
      else [])
  ++ ["sudo chmod a+x /tmp/" ++ inst.node_type ++ ".sh",
      teeRun ("/tmp/" ++ inst.node_type ++ ".sh " ++ toString inst.node_idx),
      "touch ~/.bootstrap_complete"]

/-- An observable remote effect of `_bootstrap`: one completed `scp` transfer
or one completed `ssh` command batch. -/
inductive BootstrapEffect where
  | scpFiles (files : List String) (host : String)
  | sshCmds (cmds : List String) (host : String)
  deriving DecidableEq, Repr

/-- The error message `_bootstrap` records on the shared queue: the instance
name followed by the full traceback of the caught exception. -/
def bootstrapErrMsg (name tb : String) : String :=
  "Error for host " ++ name ++ ". " ++ tb

/-- Model of `_bootstrap` for one host. The outcome of each fallible external
call is an oracle: `scpErr` (resp. `sshErr`) is `some tb` when the transfer
(resp. remote execution) raises with traceback text `tb`. Returns the remote
effects that completed and the message put on the shared error queue, if any;
the bare `except:` of the source catches every exception, so the function
always returns normally. -/
def bootstrapRun (nodeCfg : NodeConfig) (inst : Instance)
    (saltmaster cluster flavor branch : String)
    (salt_tarball certs_tarball : Option String)
    (flavorScriptExists gitPemExists : Bool)
    (requested_volumes : Option VolumeInfo)
    (scpErr sshErr : Option String) : List BootstrapEffect × Option String :=
  if inst.node_type.length ≤ 0 then ([], none)
  else
    let tscript := typeScript flavorScriptExists flavor inst.node_type
    let files := filesToScp nodeCfg inst cluster tscript gitPemExists
    let cmds := cmdsToRun nodeCfg inst saltmaster cluster flavor branch
      salt_tarball certs_tarball requested_volumes
    match scpErr with
    | some tb => ([], some (bootstrapErrMsg inst.name tb))
    | none =>
      match sshErr with
      | some tb =>
        ([BootstrapEffect.scpFiles files inst.private_ip_address],
         some (bootstrapErrMsg inst.name tb))
      | none =>
        ([BootstrapEffect.scpFiles files inst.private_ip_address,
          BootstrapEffect.sshCmds cmds inst.private_ip_address], none)

/-- Python's `needle in haystack` substring test on strings. -/
def strContainsSub (hay needle : String) : Bool :=
  (List.range (hay.toList.length + 1)).any
    (fun i => needle.toList.isPrefixOf (hay.toList.drop i))

/-- One phase of the `_install_pnda` control flow, in source order. Phases
that no claim depends on (the bastion nc probe and the tarball staging) are
folded into the preceding connectivity phase. -/
inductive InstallStep where
  | writeRunfile
  | writeSshConfig
  | waitConnectivity (hosts : List String)
  | bootstrapCoordinator
  | bootstrapRemainingHosts (keys : List String)
  | exportArtifacts
  | settleDelay (seconds : Nat)
  | runConvergence
  deriving DecidableEq, Repr

/-- The keys of the instances bootstrapped in parallel by `_install_pnda`:
every key not containing `'-' + salt-master-instance` as a substring. -/
def remainingKeys (nodeCfg : NodeConfig) (m : InstanceMap) : List String :=
  (m.filter (fun ki => !(strContainsSub ki.1 ("-" ++ nodeCfg.salt_master_instance)))).map
    Prod.fst

/-- Model of the phase sequence of `_install_pnda` after topology resolution.
`coordErrs` is the shared error-queue content after the solo, blocking
coordinator `_bootstrap` call; `remainingErrs` is the queue content at the
join of the parallel bootstrap wave. Returns the executed phase trace and the
exception raised, if any. -/
def installPnda (nodeCfg : NodeConfig) (m : InstanceMap)
    (coordErrs remainingErrs : List String) : List InstallStep × Option String :=
  let pre := [InstallStep.writeRunfile, InstallStep.writeSshConfig,
              InstallStep.waitConnectivity (m.map (fun ki => ki.2.private_ip_address)),
              InstallStep.bootstrapCoordinator]
  match processThreadErrors "bootstrapping saltmaster" coordErrs with
  | Except.error e => (pre, some e)
  | Except.ok _ =>
    let mid := pre ++ [InstallStep.bootstrapRemainingHosts (remainingKeys nodeCfg m)]
    match processThreadErrors "bootstrapping host" remainingErrs with
    | Except.error e => (mid, some e)
    | Except.ok _ =>
      (mid ++ [InstallStep.exportArtifacts, InstallStep.settleDelay 30,
               InstallStep.runConvergence], none)

/-- The instances selected for a bootstrap pipeline invocation by
`_expand_pnda`: `len(instance['node_type']) > 0 and not instance['bootstrapped']`. -/
def expandBootstrapTargets (m : InstanceMap) : InstanceMap :=
  m.filter (fun ki => decide (0 < ki.2.node_type.length) && !ki.2.bootstrapped)

/-- The mutable backend state relevant to the instance-map cache:
`cachedInstanceMap` models `self._cached_instance_map` (`none` is Python's
`None`); `fillCount` counts the `fill_instance_map` invocations so far, so
that recomputation is observable. -/
structure BackendState where
  cachedInstanceMap : Option InstanceMap
  fillCount : Nat

/-- Python falsiness of `self._cached_instance_map` as tested by
`if not self._cached_instance_map`: `None` and the empty dict are both falsy. -/
def cacheFalsy (c : Option InstanceMap) : Bool :=
  match c with
  | none => true
  | some m => m.isEmpty

/-- The worker `do_check` of `_check_hosts_bootstrapped`: probes one host for
the completion sentinel and reports the host key on success; any probe
exception is swallowed and nothing is reported. -/
def doCheck (host_key : String) (probeRes : Except String Unit) : Option String :=
  match probeRes with
  | Except.ok _ => some host_key
  | Except.error _ => none

/-- The content of the `check_results` queue of `_check_hosts_bootstrapped`
after every probe worker has joined: the key of each host whose sentinel probe
succeeded, in input order. `probe ip` is the outcome of
`ssh(['ls ~/.bootstrap_complete'], cluster, ip)`. -/
def checkResultsOf (m : InstanceMap) (probe : String → Except String Unit) : List String :=
  m.filterMap (fun ki => doCheck ki.1 (probe ki.2.private_ip_address))

/-- Model of `_check_hosts_bootstrapped`: all sentinel probes run to
completion (the shared error queue is `None`, so no join-time error processing
happens), then every host key drained from the results queue has its
instance's `bootstrapped` flag set to true. -/
def checkHostsBootstrapped (m : InstanceMap) (probe : String → Except String Unit) :
    InstanceMap :=
  m.map (fun ki =>
    if ki.1 ∈ checkResultsOf m probe then (ki.1, { ki.2 with bootstrapped := true }) else ki)

/-- Model of `get_instance_map`: on a falsy cache, recompute the map via
`fill_instance_map` (the n-th invocation returns `fill n`), optionally refresh
bootstrap flags, store the result and return it; otherwise return the cached
map unchanged without touching `fill_instance_map` or the probes. -/
def getInstanceMap (fill : Nat → InstanceMap) (check_bootstrapped : Bool)
    (probe : String → Except String Unit) (s : BackendState) :
    InstanceMap × BackendState :=
  if cacheFalsy s.cachedInstanceMap then
    let instance_map := fill s.fillCount
    let instance_map :=
      if check_bootstrapped then checkHostsBootstrapped instance_map probe
      else instance_map
    (instance_map,
     { cachedInstanceMap := some instance_map, fillCount := s.fillCount + 1 })
  else
    (s.cachedInstanceMap.getD [], s)

/-- Model of `clear_instance_map_cache`: reset the cache to `None`. -/
def clearInstanceMapCache (s : BackendState) : BackendState :=
  { s with cachedInstanceMap := none }

/-- Python file-open modes used by `to_runfile`. -/
inductive PyFileMode where
  | writeMode
  | readMode
  deriving DecidableEq, Repr

/-- Model of `dict.update`: keys of `updates` replace those of `base`. -/
def dictUpdate (base updates : List (String × String)) : List (String × String) :=
  base.filter (fun kv => !(updates.map Prod.fst).contains kv.1) ++ updates

/-- Model of `json.dump(jrf, runfile)`: writing through a handle opened in
read-only mode raises IOError. -/
def jsonDump (mode : PyFileMode) (jrf : List (String × String)) :
    Except String (List (String × String)) :=
  match mode with
  | PyFileMode.writeMode => Except.ok jrf
  | PyFileMode.readMode => Except.error "IOError: File not open for writing"

/-- Model of `to_runfile` from `pnda_cli_utils.py`: the on-disk runfile is
`none` when absent and `some record` when present with the given parsed JSON
content. The open mode is `'w'` when the file does not exist and `'r'`
otherwise; in `'r'` mode the record is loaded and merged, but the final
`json.dump` targets the same read-only handle. Returns the new file content or
the raised error. -/
def to_runfile (pairs : List (String × String))
    (fs : Option (List (String × String))) :
    Except String (List (String × String)) :=
  let mode := match fs with
    | none => PyFileMode.writeMode
    | some _ => PyFileMode.readMode
  let jrf := match mode, fs with
    | PyFileMode.readMode, some content => content
    | _, _ => []
  jsonDump mode (dictUpdate jrf pairs)

theorem chunkList_nil (n : Nat) : chunkList n ([] : List α) = [] := by
  simp [chunkList]

theorem chunkList_flatten (n : Nat) (hn : 1 ≤ n) (l : List α) :
    (chunkList n l).flatten = l := by
  induction l using chunkList.induct n with
  | case1 => simp [chunkList]
  | case2 x xs h => omega
  | case3 x xs h ih =>
    rw [chunkList]
    simp only [if_neg h, List.flatten_cons]
    rw [ih]
    exact List.take_append_drop n (x :: xs)

theorem chunkList_mem_length_le (n : Nat) (l : List α) (w : List α)
    (hw : w ∈ chunkList n l) : w.length ≤ n := by
  induction l using chunkList.induct n with
  | case1 => simp [chunkList] at hw
  | case2 x xs h => simp [chunkList, if_pos h] at hw
  | case3 x xs h ih =>
    rw [chunkList, if_neg h] at hw
    rcases List.mem_cons.mp hw with h1 | h1
    · subst h1
      simp
    · exact ih h1

theorem chunkList_mem_ne_nil (n : Nat) (l : List α) (w : List α)
    (hw : w ∈ chunkList n l) : w ≠ [] := by
  induction l using chunkList.induct n with
  | case1 => simp [chunkList] at hw
  | case2 x xs h => simp [chunkList, if_pos h] at hw
  | case3 x xs h ih =>
    rw [chunkList, if_neg h] at hw
    rcases List.mem_cons.mp hw with h1 | h1
    · subst h1
      intro hne
      have := congrArg List.length hne
      simp [List.length_take] at this
      omega
    · exact ih h1

theorem flatten_map_decomp {γ β : Type _} (f : γ → List β) (l : List γ) (d : γ) (k : Nat)
    (h : k + 1 < l.length) :
    (l.map f).flatten =
      ((l.take k).map f).flatten ++ f (l.getD k d) ++ f (l.getD (k + 1) d)
        ++ ((l.drop (k + 2)).map f).flatten := by
  have hk : k < l.length := by omega
  have h1 : l.drop k = l.getD k d :: l.drop (k + 1) := by
    rw [List.getD_eq_getElem l d hk]
    exact List.drop_eq_getElem_cons hk
  have h2 : l.drop (k + 1) = l.getD (k + 1) d :: l.drop (k + 2) := by
    rw [List.getD_eq_getElem l d h]
    exact List.drop_eq_getElem_cons h
  conv_lhs => rw [← List.take_append_drop k l, h1, h2]
  simp [List.map_append, List.flatten_append, List.append_assoc]

theorem waveTrace_starts_then_joins (bastion_used : Bool) (w : List α) :
    ∃ starts : List (HostEvent α),
      waveTrace bastion_used w = starts ++ w.map HostEvent.join
        ∧ starts.filterMap startedOp = w
        ∧ ∀ e ∈ starts, ∀ t : α, e ≠ HostEvent.join t := by
  refine ⟨(w.map (fun t => HostEvent.start t ::
    if bastion_used then [HostEvent.sleep 2] else [])).flatten, rfl, ?_, ?_⟩
  · induction w with
    | nil => rfl
    | cons x xs ih =>
      cases bastion_used <;> simp_all [startedOp]
  · intro e he t
    rcases List.mem_flatten.mp he with ⟨l1, hl1, hel1⟩
    rcases List.mem_map.mp hl1 with ⟨u, _, hu⟩
    subst hu
    rcases List.mem_cons.mp hel1 with h1 | h1
    · subst h1
      simp
    · cases bastion_used <;> simp_all

/-- C1: for every operation list and maximum wave size W ≥ 1,
`_wait_on_host_operations` partitions the operations into consecutive waves of
size at most W in input order; within a wave every operation is started (in
input order) before any join is awaited; no operation of wave k+1 is started
before every operation of wave k has joined; an empty operation list completes
immediately without raising; and for 5 operations with W = 2 the waves are
`[op1, op2], [op3, op4], [op5]`, giving exactly 3 sequential wave joins. -/
theorem wait_on_host_operations_waves (α : Type) (ops : List α) (W : Nat) (hW : 1 ≤ W)
    (bastion_used : Bool) (action : String) :
    (chunkList W ops).flatten = ops
    ∧ (∀ w ∈ chunkList W ops, w.length ≤ W ∧ w ≠ [])
    ∧ (∀ w : List α, ∃ starts : List (HostEvent α),
        waveTrace bastion_used w = starts ++ w.map HostEvent.join
          ∧ starts.filterMap startedOp = w
          ∧ ∀ e ∈ starts, ∀ t : α, e ≠ HostEvent.join t)
    ∧ (∀ k : Nat, k + 1 < (chunkList W ops).length →
        hostOpsTrace bastion_used W ops =
          (((chunkList W ops).take k).map (waveTrace bastion_used)).flatten
            ++ waveTrace bastion_used ((chunkList W ops).getD k [])
            ++ waveTrace bastion_used ((chunkList W ops).getD (k + 1) [])
            ++ (((chunkList W ops).drop (k + 2)).map (waveTrace bastion_used)).flatten)
    ∧ waitOnHostOperations action ([] : List α) W bastion_used (some []) = Except.ok []
    ∧ chunkList 2 [1, 2, 3, 4, 5] = [[1, 2], [3, 4], [5]]
    ∧ (chunkList 2 [1, 2, 3, 4, 5]).length = 3 := by
  refine ⟨chunkList_flatten W hW ops,
    fun w hw => ⟨chunkList_mem_length_le W ops w hw, chunkList_mem_ne_nil W ops w hw⟩,
    waveTrace_starts_then_joins bastion_used,
    fun k hk => flatten_map_decomp (waveTrace bastion_used) (chunkList W ops) [] k hk,
    ?_, ?_, ?_⟩
  · simp [waitOnHostOperations, processThreadErrors, hostOpsTrace, chunkList_nil]
  · norm_num [chunkList]
  · norm_num [chunkList]

/-- Witness for C1 at 5 operations and W = 2. -/
theorem wait_on_host_operations_waves_witness :
    1 ≤ 2 ∧ (chunkList 2 [1, 2, 3, 4, 5]).flatten = [1, 2, 3, 4, 5] :=
  ⟨by decide,
    (wait_on_host_operations_waves Nat [1, 2, 3, 4, 5] 2 (by decide) false
      "bootstrapping host").1⟩

theorem doWaitGo_advance (host : String) (probe : Nat → Bool) (tstart : Nat)
    (tcheck : Nat → Nat) (k : Nat) :
    ∀ (m fuel : Nat),
      (∀ j, m ≤ j → j < m + k →
        probe j = false ∧ tcheck j - tstart ≤ CONNECTIVITY_DEADLINE_MS) →
      doWaitGo host probe tstart tcheck (fuel + k) m
        = doWaitGo host probe tstart tcheck fuel (m + k) := by
  induction k with
  | zero => intro m fuel _; rfl
  | succ k ih =>
    intro m fuel h
    obtain ⟨hp, ht⟩ := h m (Nat.le_refl m) (by omega)
    have hrest : ∀ j, m + 1 ≤ j → j < (m + 1) + k →
        probe j = false ∧ tcheck j - tstart ≤ CONNECTIVITY_DEADLINE_MS :=
      fun j hj1 hj2 => h j (by omega) (by omega)
    calc doWaitGo host probe tstart tcheck (fuel + (k + 1)) m
        = doWaitGo host probe tstart tcheck (fuel + k) (m + 1) := by
          show doWaitGo host probe tstart tcheck ((fuel + k) + 1) m = _
          simp only [doWaitGo, hp]
          rw [if_neg (Nat.not_lt.mpr ht)]
          simp
      _ = doWaitGo host probe tstart tcheck fuel ((m + 1) + k) := ih (m + 1) fuel hrest
      _ = doWaitGo host probe tstart tcheck fuel (m + (k + 1)) := by
          rw [show (m + 1) + k = m + (k + 1) from by omega]

theorem doWaitGo_at_most_one_error (host : String) (probe : Nat → Bool) (tstart : Nat)
    (tcheck : Nat → Nat) :
    ∀ (fuel m : Nat) (errs : List String),
      doWaitGo host probe tstart tcheck fuel m = some errs →
      errs = [] ∨ errs = [giveUpMsg host] := by
  intro fuel
  induction fuel with
  | zero => intro m errs h; simp [doWaitGo] at h
  | succ fuel ih =>
    intro m errs h
    simp only [doWaitGo] at h
    by_cases hp : probe m
    · rw [if_pos hp] at h
      exact Or.inl (Option.some.inj h).symm
    · rw [if_neg hp] at h
      by_cases hd : tcheck m - tstart > CONNECTIVITY_DEADLINE_MS
      · rw [if_pos hd] at h
        exact Or.inr (Option.some.inj h).symm
      · rw [if_neg hd] at h
        exact ih (m + 1) errs h

theorem doWaitGo_none_all_within (host : String) (probe : Nat → Bool) (tstart : Nat)
    (tcheck : Nat → Nat) :
    ∀ (fuel m : Nat), doWaitGo host probe tstart tcheck fuel m = none →
      ∀ j, m ≤ j → j < m + fuel →
        probe j = false ∧ tcheck j - tstart ≤ CONNECTIVITY_DEADLINE_MS := by
  intro fuel
  induction fuel with
  | zero => intro m _ j _ hj; omega
  | succ fuel ih =>
    intro m h j hj1 hj2
    simp only [doWaitGo] at h
    by_cases hp : probe m
    · rw [if_pos hp] at h; exact absurd h (by simp)
    · rw [if_neg hp] at h
      by_cases hd : tcheck m - tstart > CONNECTIVITY_DEADLINE_MS
      · rw [if_pos hd] at h; exact absurd h (by simp)
      · rw [if_neg hd] at h
        rcases Nat.eq_or_lt_of_le hj1 with he | hgt
        · subst he
          exact ⟨Bool.eq_false_iff.mpr hp, Nat.not_lt.mp hd⟩
        · exact ih (m + 1) h j hgt (by omega)

theorem tcheck_growth (tstart : Nat) (tcheck : Nat → Nat)
    (h0 : tstart ≤ tcheck 0) (hmono : ∀ j, tcheck j + 2000 ≤ tcheck (j + 1)) :
    ∀ j, tstart + 2000 * j ≤ tcheck j := by
  intro j
  induction j with
  | zero => simpa using h0
  | succ j ih =>
    have := hmono j
    omega

theorem collectWaitErrors_eq (probe : String → Nat → Bool) (tstart : String → Nat)
    (tcheck : String → Nat → Nat) (fuel : Nat) (errfn : String → List String) :
    ∀ hosts : List String,
      (∀ h ∈ hosts, doWait h (probe h) (tstart h) (tcheck h) fuel = some (errfn h)) →
      collectWaitErrors hosts probe tstart tcheck fuel = some ((hosts.map errfn).flatten) := by
  intro hosts
  induction hosts with
  | nil => intro _; rfl
  | cons h rest ih =>
    intro hall
    have hh := hall h (List.mem_cons_self h rest)
    have hr := ih (fun x hx => hall x (List.mem_cons_of_mem h hx))
    simp only [collectWaitErrors, hh, hr, List.map_cons, List.flatten_cons]

/-- C3: for every host, the `do_wait` polling loop of
`_wait_for_host_connectivity` terminates on the first successful probe without
recording any error; when no probe succeeds it records exactly the one
give-up failure for that host, and only at a deadline check where more than 10
minutes have elapsed since the host's first attempt; it never records more
than one error; with the 2-second sleep between attempts the loop always
terminates within 302 attempts; and the per-host loops are independent, all
recorded failures being drained together through `_process_thread_errors` only
after every loop has terminated. -/
theorem wait_for_host_connectivity_polling (host : String) (probe : Nat → Bool)
    (tstart : Nat) (tcheck : Nat → Nat) (fuel m : Nat) :
    (m < fuel → probe m = true →
      (∀ j, j < m → probe j = false ∧ tcheck j - tstart ≤ CONNECTIVITY_DEADLINE_MS) →
      doWait host probe tstart tcheck fuel = some [])
    ∧ (m < fuel → (∀ j, j ≤ m → probe j = false) →
      (∀ j, j < m → tcheck j - tstart ≤ CONNECTIVITY_DEADLINE_MS) →
      tcheck m - tstart > CONNECTIVITY_DEADLINE_MS →
      doWait host probe tstart tcheck fuel = some [giveUpMsg host])
    ∧ (∀ errs, doWait host probe tstart tcheck fuel = some errs →
        errs = [] ∨ errs = [giveUpMsg host])
    ∧ (tstart ≤ tcheck 0 → (∀ j, tcheck j + 2000 ≤ tcheck (j + 1)) →
        ∃ errs, doWait host probe tstart tcheck 302 = some errs)
    ∧ (∀ (hosts : List String) (p : String → Nat → Bool) (ts : String → Nat)
        (tc : String → Nat → Nat) (errfn : String → List String),
        (∀ h ∈ hosts, doWait h (p h) (ts h) (tc h) fuel = some (errfn h)) →
        waitForHostConnectivity hosts p ts tc fuel =
          some (processThreadErrors "waiting for host connectivity"
            ((hosts.map errfn).flatten))) := by
  refine ⟨?_, ?_, doWaitGo_at_most_one_error host probe tstart tcheck fuel 0, ?_, ?_⟩
  · intro hm hp hprev
    have hadv := doWaitGo_advance host probe tstart tcheck m 0 (fuel - m)
      (fun j _ hj => hprev j (by omega))
    unfold doWait
    rw [show fuel = (fuel - m) + m from by omega, hadv]
    obtain ⟨f, hf⟩ : ∃ f, fuel - m = f + 1 := ⟨fuel - m - 1, by omega⟩
    rw [hf]
    simp only [Nat.zero_add, doWaitGo, hp]
    rfl
  · intro hm hfail hprev hd
    have hadv := doWaitGo_advance host probe tstart tcheck m 0 (fuel - m)
      (fun j _ hj => ⟨hfail j (by omega), hprev j (by omega)⟩)
    unfold doWait
    rw [show fuel = (fuel - m) + m from by omega, hadv]
    obtain ⟨f, hf⟩ : ∃ f, fuel - m = f + 1 := ⟨fuel - m - 1, by omega⟩
    rw [hf]
    simp only [Nat.zero_add, doWaitGo]
    rw [if_neg (by simp [hfail m (Nat.le_refl m)]), if_pos hd]
  · intro h0 hmono
    rcases ho : doWait host probe tstart tcheck 302 with _ | errs
    · exfalso
      have hall := doWaitGo_none_all_within host probe tstart tcheck 302 0 ho
      have h301 := hall 301 (by omega) (by omega)
      have hgr := tcheck_growth tstart tcheck h0 hmono 301
      have hD : CONNECTIVITY_DEADLINE_MS = 600000 := rfl
      omega
    · exact ⟨errs, rfl⟩
  · intro hosts p ts tc errfn hall
    unfold waitForHostConnectivity
    rw [collectWaitErrors_eq p ts tc fuel errfn hosts hall]
    rfl

/-- Witness for C3: a host whose probe succeeds on attempt 1 records no
error, and the aggregation over a singleton host list surfaces its empty
error list. -/
theorem wait_for_host_connectivity_polling_witness :
    doWait "10.0.0.1" (fun j => decide (j = 1)) 0 (fun j => 2000 * (j + 1)) 10 = some [] :=
  (wait_for_host_connectivity_polling "10.0.0.1" (fun j => decide (j = 1)) 0
    (fun j => 2000 * (j + 1)) 10 1).1 (by decide) (by decide)
    (fun j hj => by
      have hj0 : j = 0 := by omega
      subst hj0
      exact ⟨by decide, by decide⟩)

theorem getLast?_concat_three (l : List α) (a b c : α) :
    (l ++ [a, b, c]).getLast? = some c := by
  rw [List.getLast?_append_cons]
  rfl

theorem string_length_le_zero_iff (s : String) : s.length ≤ 0 ↔ s = "" := by
  constructor
  · intro h
    cases s with
    | mk data =>
      have : data.length = 0 := by simpa [String.length] using h
      simp [List.length_eq_zero] at this
      simp [this]
  · intro h
    subst h
    simp [String.length]

/-- C4: `_bootstrap` never propagates an exception to its caller: every
failure of the per-host pipeline is caught and recorded on the shared error
queue as a message carrying the instance name and the full traceback, and the
function returns normally; an instance with an empty `node_type` returns
immediately with no transfer, no execution and no recorded error; an error is
recorded exactly when a pipeline step failed on a role-bearing host, and after
a failed transfer no remote execution takes place. -/
theorem bootstrap_error_handling (nodeCfg : NodeConfig) (inst : Instance)
    (saltmaster cluster flavor branch : String)
    (salt_tarball certs_tarball : Option String)
    (flavorScriptExists gitPemExists : Bool)
    (requested_volumes : Option VolumeInfo)
    (scpErr sshErr : Option String) :
    (inst.node_type = "" →
      bootstrapRun nodeCfg inst saltmaster cluster flavor branch salt_tarball
        certs_tarball flavorScriptExists gitPemExists requested_volumes scpErr sshErr
        = ([], none))
    ∧ (∀ msg,
        (bootstrapRun nodeCfg inst saltmaster cluster flavor branch salt_tarball
          certs_tarball flavorScriptExists gitPemExists requested_volumes scpErr
          sshErr).2 = some msg →
        ∃ tb, (scpErr = some tb ∨ sshErr = some tb)
          ∧ msg = "Error for host " ++ inst.name ++ ". " ++ tb)
    ∧ ((bootstrapRun nodeCfg inst saltmaster cluster flavor branch salt_tarball
          certs_tarball flavorScriptExists gitPemExists requested_volumes scpErr
          sshErr).2 = none
        ↔ (inst.node_type = "" ∨ (scpErr = none ∧ sshErr = none)))
    ∧ (∀ tb, scpErr = some tb → ∀ cmds h,
        BootstrapEffect.sshCmds cmds h ∉
          (bootstrapRun nodeCfg inst saltmaster cluster flavor branch salt_tarball
            certs_tarball flavorScriptExists gitPemExists requested_volumes scpErr
            sshErr).1) := by
  by_cases hrole : inst.node_type.length ≤ 0
  · have hempty : inst.node_type = "" := (string_length_le_zero_iff _).mp hrole
    refine ⟨fun _ => ?_, fun msg hmsg => ?_, ?_, fun tb htb cmds h hmem => ?_⟩
    · simp [bootstrapRun, hrole]
    · simp [bootstrapRun, hrole] at hmsg
    · simp [bootstrapRun, hrole, hempty]
    · simp [bootstrapRun, hrole] at hmem
  · have hne : ¬ inst.node_type = "" := fun he => hrole ((string_length_le_zero_iff _).mpr he)
    refine ⟨fun he => absurd he hne, fun msg hmsg => ?_, ?_, fun tb htb cmds h hmem => ?_⟩
    · rcases hscp : scpErr with _ | tb1
      · rcases hssh : sshErr with _ | tb2
        · simp [bootstrapRun, hrole, hscp, hssh] at hmsg
        · simp [bootstrapRun, hrole, hscp, hssh] at hmsg
          exact ⟨tb2, Or.inr rfl, hmsg.symm⟩
      · simp [bootstrapRun, hrole, hscp] at hmsg
        exact ⟨tb1, Or.inl rfl, hmsg.symm⟩
    · rcases hscp : scpErr with _ | tb1
      · rcases hssh : sshErr with _ | tb2
        · simp [bootstrapRun, hrole, hscp, hssh]
        · simp [bootstrapRun, hrole, hscp, hssh, hne]
      · simp [bootstrapRun, hrole, hscp, hne]
    · subst htb
      simp [bootstrapRun, hrole] at hmem

/-- Witness for C4: a role-less instance is a no-op, at concrete inputs. -/
theorem bootstrap_error_handling_witness :
    bootstrapRun ⟨"console", "bastion", "saltmaster"⟩
      ⟨"c1-cdh-dn-0", "10.0.0.5", "", 0, false, false⟩
      "10.0.0.2" "c1" "standard" "master" none none false false none none none
      = ([], none) :=
  (bootstrap_error_handling ⟨"console", "bastion", "saltmaster"⟩
    ⟨"c1-cdh-dn-0", "10.0.0.5", "", 0, false, false⟩
    "10.0.0.2" "c1" "standard" "master" none none false false none none none).1 rfl

/-- C5: for every instance with a non-empty role, `_bootstrap` builds the
remote command list in source order — source the per-cluster environment
file; export the coordinating-IP/cluster/flavor/branch/tarball variables;
chmod the staged common scripts; the declared partition/volume persistence
commands; the universal base script; the coordinator-extension script (with
its chmod) exactly when the instance holds the coordinating role; the chmod'd
role script invoked with the instance's node index; and the sentinel-file
touch as the very last command — and the staged files are transferred before
this command sequence is executed. -/
theorem bootstrap_command_order (nodeCfg : NodeConfig) (inst : Instance)
    (saltmaster cluster flavor branch : String)
    (salt_tarball certs_tarball : Option String)
    (flavorScriptExists gitPemExists : Bool)
    (requested_volumes : Option VolumeInfo)
    (hrole : inst.node_type ≠ "") :
    cmdsToRun nodeCfg inst saltmaster cluster flavor branch salt_tarball certs_tarball
        requested_volumes
      = ["source /tmp/pnda_env_" ++ cluster ++ ".sh"]
        ++ exportCmds saltmaster cluster flavor branch salt_tarball certs_tarball
        ++ ["sudo chmod a+x /tmp/package-install.sh",
            "sudo chmod a+x /tmp/base.sh",
            "sudo chmod a+x /tmp/volume-mappings.sh"]
        ++ diskConfigCmds requested_volumes
        ++ [teeRun "/tmp/base.sh"]
        ++ (if isCoordinator nodeCfg inst then
              ["sudo chmod a+x /tmp/saltmaster-common.sh",
               teeRun "/tmp/saltmaster-common.sh"]
            else [])
        ++ ["sudo chmod a+x /tmp/" ++ inst.node_type ++ ".sh",
            teeRun ("/tmp/" ++ inst.node_type ++ ".sh " ++ toString inst.node_idx),
            "touch ~/.bootstrap_complete"]
    ∧ (cmdsToRun nodeCfg inst saltmaster cluster flavor branch salt_tarball certs_tarball
        requested_volumes).getLast? = some "touch ~/.bootstrap_complete"
    ∧ teeRun ("/tmp/" ++ inst.node_type ++ ".sh " ++ toString inst.node_idx)
        ∈ cmdsToRun nodeCfg inst saltmaster cluster flavor branch salt_tarball
            certs_tarball requested_volumes
    ∧ (isCoordinator nodeCfg inst = true →
        teeRun "/tmp/saltmaster-common.sh"
          ∈ cmdsToRun nodeCfg inst saltmaster cluster flavor branch salt_tarball
              certs_tarball requested_volumes)
    ∧ bootstrapRun nodeCfg inst saltmaster cluster flavor branch salt_tarball
        certs_tarball flavorScriptExists gitPemExists requested_volumes none none
      = ([BootstrapEffect.scpFiles
            (filesToScp nodeCfg inst cluster
              (typeScript flavorScriptExists flavor inst.node_type) gitPemExists)
            inst.private_ip_address,
          BootstrapEffect.sshCmds
            (cmdsToRun nodeCfg inst saltmaster cluster flavor branch salt_tarball
              certs_tarball requested_volumes)
            inst.private_ip_address], none) := by
  have hlen : ¬ inst.node_type.length ≤ 0 :=
    fun hle => hrole ((string_length_le_zero_iff _).mp hle)
  refine ⟨rfl, ?_, ?_, ?_, ?_⟩
  · exact getLast?_concat_three _ _ _ _
  · simp [cmdsToRun]
  · intro hc
    simp [cmdsToRun, hc]
  · simp [bootstrapRun, hlen]

/-- Witness for C5 at a concrete coordinating instance. -/
theorem bootstrap_command_order_witness :
    (cmdsToRun ⟨"console", "bastion", "saltmaster"⟩
      ⟨"c1-saltmaster", "10.0.0.2", "saltmaster", 0, false, false⟩
      "10.0.0.2" "c1" "standard" "master" none none none).getLast?
      = some "touch ~/.bootstrap_complete" :=
  (bootstrap_command_order ⟨"console", "bastion", "saltmaster"⟩
    ⟨"c1-saltmaster", "10.0.0.2", "saltmaster", 0, false, false⟩
    "10.0.0.2" "c1" "standard" "master" none none false false none
    (by decide)).2.1

/-- C2: in the create flow (`_install_pnda`) the coordinator bootstrap runs
solo, as the last step of a fixed prefix preceding every other host's
bootstrap; when the coordinator bootstrap recorded any error the controller
raises immediately with the aggregate message, the parallel bootstrap of the
remaining hosts never starts and artifact export is never reached. -/
theorem install_pnda_coordinator_first (nodeCfg : NodeConfig) (m : InstanceMap)
    (coordErrs remainingErrs : List String) (e : String) (tl : List String) :
    (∃ rest, (installPnda nodeCfg m coordErrs remainingErrs).1
        = [InstallStep.writeRunfile, InstallStep.writeSshConfig,
           InstallStep.waitConnectivity (m.map (fun ki => ki.2.private_ip_address)),
           InstallStep.bootstrapCoordinator] ++ rest)
    ∧ (coordErrs = e :: tl →
        installPnda nodeCfg m coordErrs remainingErrs
          = ([InstallStep.writeRunfile, InstallStep.writeSshConfig,
              InstallStep.waitConnectivity (m.map (fun ki => ki.2.private_ip_address)),
              InstallStep.bootstrapCoordinator],
             some ("Error bootstrapping saltmaster, error msg: " ++ e
               ++ ". See debug log (" ++ LOG_FILE_NAME ++ ") for details.")))
    ∧ (coordErrs = e :: tl →
        (∀ ks, InstallStep.bootstrapRemainingHosts ks
            ∉ (installPnda nodeCfg m coordErrs remainingErrs).1)
          ∧ InstallStep.exportArtifacts
              ∉ (installPnda nodeCfg m coordErrs remainingErrs).1) := by
  refine ⟨?_, ?_, ?_⟩
  · cases coordErrs with
    | nil =>
      cases remainingErrs with
      | nil => exact ⟨_, rfl⟩
      | cons r rs => exact ⟨_, rfl⟩
    | cons c cs => exact ⟨[], by simp [installPnda, processThreadErrors]⟩
  · intro hc
    subst hc
    rfl
  · intro hc
    subst hc
    constructor
    · intro ks hmem
      simp [installPnda, processThreadErrors] at hmem
    · intro hmem
      simp [installPnda, processThreadErrors] at hmem

/-- Witness for C2: a coordinator bootstrap error at concrete inputs halts
the flow with no remaining-hosts phase in the trace. -/
theorem install_pnda_coordinator_first_witness :
    installPnda ⟨"console", "bastion", "saltmaster"⟩ [] ["boom"] []
      = ([InstallStep.writeRunfile, InstallStep.writeSshConfig,
          InstallStep.waitConnectivity [], InstallStep.bootstrapCoordinator],
         some ("Error bootstrapping saltmaster, error msg: boom. See debug log ("
           ++ LOG_FILE_NAME ++ ") for details.")) := by
  have h := (install_pnda_coordinator_first ⟨"console", "bastion", "saltmaster"⟩ []
    ["boom"] [] "boom" []).2.1 rfl
  simpa using h

/-- C6: in the expand flow (`_expand_pnda`) an instance receives a bootstrap
pipeline invocation iff it has a non-empty `node_type` and its `bootstrapped`
flag is false; in the 3-host scenario with flags h1 true, h2 false, h3 false,
only h2 and h3 are selected, in input order. -/
theorem expand_pnda_targets (m : InstanceMap) (k : String) (i : Instance) :
    ((k, i) ∈ expandBootstrapTargets m ↔
      ((k, i) ∈ m ∧ i.node_type ≠ "" ∧ i.bootstrapped = false))
    ∧ expandBootstrapTargets
        [("c1-h1", ⟨"c1-h1", "10.0.0.1", "cdh-dn", 0, false, true⟩),
         ("c1-h2", ⟨"c1-h2", "10.0.0.2", "cdh-dn", 1, false, false⟩),
         ("c1-h3", ⟨"c1-h3", "10.0.0.3", "kafka", 0, false, false⟩)]
      = [("c1-h2", ⟨"c1-h2", "10.0.0.2", "cdh-dn", 1, false, false⟩),
         ("c1-h3", ⟨"c1-h3", "10.0.0.3", "kafka", 0, false, false⟩)] := by
  constructor
  · rw [expandBootstrapTargets, List.mem_filter]
    constructor
    · rintro ⟨hm, hcond⟩
      simp only [Bool.and_eq_true, decide_eq_true_eq, Bool.not_eq_true'] at hcond
      refine ⟨hm, ?_, hcond.2⟩
      intro he
      rw [he] at hcond
      simp [String.length] at hcond
    · rintro ⟨hm, hne, hb⟩
      refine ⟨hm, ?_⟩
      simp only [Bool.and_eq_true, decide_eq_true_eq, Bool.not_eq_true', hb, and_true]
      have : ¬ i.node_type.length ≤ 0 :=
        fun hle => hne ((string_length_le_zero_iff _).mp hle)
      omega
  · rfl

theorem nodup_keys_eq {α β : Type _} (m : List (α × β)) (h : (m.map Prod.fst).Nodup)
    (x y : α × β) (hx : x ∈ m) (hy : y ∈ m) (hk : x.1 = y.1) : x = y := by
  induction m with
  | nil => simp at hx
  | cons a t ih =>
    rw [List.map_cons, List.nodup_cons] at h
    rcases List.mem_cons.mp hx with hx1 | hx1 <;> rcases List.mem_cons.mp hy with hy1 | hy1
    · rw [hx1, hy1]
    · exfalso
      apply h.1
      have hak : a.1 = y.1 := by rw [← hx1]; exact hk
      rw [hak]
      exact List.mem_map_of_mem Prod.fst hy1
    · exfalso
      apply h.1
      have hak : a.1 = x.1 := by rw [← hy1]; exact hk.symm
      rw [hak]
      exact List.mem_map_of_mem Prod.fst hx1
    · exact ih h.2 hx1 hy1

/-- C8: `_check_hosts_bootstrapped` sets an instance's `bootstrapped` flag to
true exactly for the hosts whose sentinel probe succeeds; a failing probe
(timeout or absent sentinel) leaves the instance unchanged — in particular a
false flag stays false — because the failure is swallowed inside the worker;
and since the shared error queue passed to the join is `None`, the join-time
error processing is skipped, so no probe failure can raise. -/
theorem check_hosts_bootstrapped_flags (m : InstanceMap)
    (probe : String → Except String Unit)
    (hkeys : (m.map Prod.fst).Nodup) :
    checkHostsBootstrapped m probe
      = m.map (fun ki =>
          match probe ki.2.private_ip_address with
          | Except.ok _ => (ki.1, { ki.2 with bootstrapped := true })
          | Except.error _ => ki)
    ∧ (∀ (thr : List String) (n : Nat) (b : Bool),
        waitOnHostOperations "checking bootstrap status" thr n b none
          = Except.ok (hostOpsTrace b n thr)) := by
  constructor
  · unfold checkHostsBootstrapped
    apply List.map_congr_left
    intro ki hki
    rcases hpr : probe ki.2.private_ip_address with err | u
    · have hnot : ki.1 ∉ checkResultsOf m probe := by
        intro hmem
        rcases List.mem_filterMap.mp hmem with ⟨kj, hkj, hdo⟩
        rcases hpj : probe kj.2.private_ip_address with errj | uj
        · rw [hpj] at hdo
          simp [doCheck] at hdo
        · rw [hpj] at hdo
          simp only [doCheck, Option.some.injEq] at hdo
          have hkeq : kj = ki := nodup_keys_eq m hkeys kj ki hkj hki hdo
          rw [hkeq, hpr] at hpj
          exact Except.noConfusion hpj
      rw [if_neg hnot]
    · have hyes : ki.1 ∈ checkResultsOf m probe :=
        List.mem_filterMap.mpr ⟨ki, hki, by rw [hpr]; rfl⟩
      rw [if_pos hyes]
  · intro thr n b
    rfl

/-- Witness for C8 at a concrete two-host map: the probed-ok host is flagged,
the failing host is untouched. -/
theorem check_hosts_bootstrapped_flags_witness :
    checkHostsBootstrapped
      [("c1-h1", ⟨"c1-h1", "10.0.0.1", "cdh-dn", 0, false, false⟩),
       ("c1-h2", ⟨"c1-h2", "10.0.0.2", "kafka", 0, false, false⟩)]
      (fun ip => if ip = "10.0.0.1" then Except.ok () else Except.error "timeout")
      = [("c1-h1", ⟨"c1-h1", "10.0.0.1", "cdh-dn", 0, false, true⟩),
         ("c1-h2", ⟨"c1-h2", "10.0.0.2", "kafka", 0, false, false⟩)] := by
  have h := (check_hosts_bootstrapped_flags
    [("c1-h1", ⟨"c1-h1", "10.0.0.1", "cdh-dn", 0, false, false⟩),
     ("c1-h2", ⟨"c1-h2", "10.0.0.2", "kafka", 0, false, false⟩)]
    (fun ip => if ip = "10.0.0.1" then Except.ok () else Except.error "timeout")
    (by decide)).1
  rw [h]
  rfl

/-- C7 counterexample: when `fill_instance_map` returns the empty map, the
cached empty dict is falsy, so the call after the first invokes
`fill_instance_map` again (the fill counter advances to 2) and can return a
different map — refuting, at this concrete input, that every call after the
first returns the identical object computed by the first call without
recomputing. -/
theorem get_instance_map_cache_counterexample :
    (getInstanceMap
        (fun n => if n = 0 then []
          else [("c1-h1", ⟨"c1-h1", "10.0.0.1", "cdh-dn", 0, false, false⟩)])
        false (fun _ => Except.error "unreachable") ⟨none, 0⟩).1 = []
    ∧ (getInstanceMap
        (fun n => if n = 0 then []
          else [("c1-h1", ⟨"c1-h1", "10.0.0.1", "cdh-dn", 0, false, false⟩)])
        false (fun _ => Except.error "unreachable")
        (getInstanceMap
          (fun n => if n = 0 then []
            else [("c1-h1", ⟨"c1-h1", "10.0.0.1", "cdh-dn", 0, false, false⟩)])
          false (fun _ => Except.error "unreachable") ⟨none, 0⟩).2).1 ≠ []
    ∧ (getInstanceMap
        (fun n => if n = 0 then []
          else [("c1-h1", ⟨"c1-h1", "10.0.0.1", "cdh-dn", 0, false, false⟩)])
        false (fun _ => Except.error "unreachable")
        (getInstanceMap
          (fun n => if n = 0 then []
            else [("c1-h1", ⟨"c1-h1", "10.0.0.1", "cdh-dn", 0, false, false⟩)])
          false (fun _ => Except.error "unreachable") ⟨none, 0⟩).2).2.fillCount = 2 := by
  refine ⟨rfl, ?_, rfl⟩
  decide

/-- C7 (amended): provided the map cached by a `get_instance_map` call is
non-empty, every call with no intervening `clear_instance_map_cache` returns
exactly the cached map with the state unchanged and without invoking
`fill_instance_map`; after a `clear_instance_map_cache` call the next
`get_instance_map` call recomputes the map via `fill_instance_map`. -/
theorem get_instance_map_cache_amended (fill : Nat → InstanceMap) (cb : Bool)
    (probe : String → Except String Unit) (s : BackendState) (mp : InstanceMap) :
    (s.cachedInstanceMap = some mp → mp ≠ [] →
      getInstanceMap fill cb probe s = (mp, s))
    ∧ (cacheFalsy s.cachedInstanceMap = true →
        (getInstanceMap fill cb probe s).2.fillCount = s.fillCount + 1
          ∧ (getInstanceMap fill cb probe s).1
              = (if cb then checkHostsBootstrapped (fill s.fillCount) probe
                 else fill s.fillCount))
    ∧ (getInstanceMap fill cb probe (clearInstanceMapCache s)).2.fillCount
        = s.fillCount + 1 := by
  refine ⟨?_, ?_, ?_⟩
  · intro hc hne
    have hfalsy : cacheFalsy s.cachedInstanceMap = false := by
      rw [hc]
      simpa [cacheFalsy] using hne
    unfold getInstanceMap
    rw [hfalsy]
    simp [hc]
  · intro hfalsy
    unfold getInstanceMap
    rw [hfalsy]
    simp
  · unfold getInstanceMap clearInstanceMapCache
    simp [cacheFalsy]

/-- Witness for C7 (amended) at a concrete cached non-empty map. -/
theorem get_instance_map_cache_amended_witness :
    getInstanceMap (fun _ => [])
      false (fun _ => Except.error "unreachable")
      ⟨some [("c1-h1", ⟨"c1-h1", "10.0.0.1", "cdh-dn", 0, false, false⟩)], 1⟩
      = ([("c1-h1", ⟨"c1-h1", "10.0.0.1", "cdh-dn", 0, false, false⟩)],
         ⟨some [("c1-h1", ⟨"c1-h1", "10.0.0.1", "cdh-dn", 0, false, false⟩)], 1⟩) :=
  (get_instance_map_cache_amended (fun _ => []) false (fun _ => Except.error "unreachable")
    ⟨some [("c1-h1", ⟨"c1-h1", "10.0.0.1", "cdh-dn", 0, false, false⟩)], 1⟩
    [("c1-h1", ⟨"c1-h1", "10.0.0.1", "cdh-dn", 0, false, false⟩)]).1 rfl (by decide)

/-- C10: whenever a non-empty instance map is cached, `get_instance_map`
returns it with the state unchanged, and the result is independent of the
`check_bootstrapped` argument and of the probe oracle — bootstrap status is
never probed or refreshed on a cache hit; conversely, when
`fill_instance_map` returns the empty map the stored cache is still falsy
afterwards, so every subsequent call invokes `fill_instance_map` again. -/
theorem get_instance_map_cache_hit_independence (fill : Nat → InstanceMap)
    (cb cb' : Bool) (probe probe' : String → Except String Unit)
    (s : BackendState) (mp : InstanceMap) :
    (s.cachedInstanceMap = some mp → mp ≠ [] →
      getInstanceMap fill cb probe s = (mp, s)
        ∧ getInstanceMap fill cb probe s = getInstanceMap fill cb' probe' s)
    ∧ (cacheFalsy s.cachedInstanceMap = true → fill s.fillCount = [] →
        cacheFalsy (getInstanceMap fill cb probe s).2.cachedInstanceMap = true
          ∧ (getInstanceMap fill cb probe s).2.fillCount = s.fillCount + 1) := by
  constructor
  · intro hc hne
    have hfalsy : cacheFalsy s.cachedInstanceMap = false := by
      rw [hc]
      simpa [cacheFalsy] using hne
    constructor
    · unfold getInstanceMap
      rw [hfalsy]
      simp [hc]
    · unfold getInstanceMap
      rw [hfalsy]
      simp
  · intro hfalsy hfill
    cases cb with
    | false =>
      unfold getInstanceMap
      rw [hfalsy]
      simp [hfill, cacheFalsy]
    | true =>
      unfold getInstanceMap
      rw [hfalsy]
      simp [hfill, cacheFalsy, checkHostsBootstrapped, checkResultsOf]

/-- Witness for C10: cache hit with a non-empty map ignores
`check_bootstrapped` and the probe, at concrete inputs. -/
theorem get_instance_map_cache_hit_independence_witness :
    getInstanceMap (fun _ => []) true (fun _ => Except.error "down")
      ⟨some [("c1-h1", ⟨"c1-h1", "10.0.0.1", "cdh-dn", 0, false, false⟩)], 1⟩
      = getInstanceMap (fun _ => []) false (fun _ => Except.ok ())
        ⟨some [("c1-h1", ⟨"c1-h1", "10.0.0.1", "cdh-dn", 0, false, false⟩)], 1⟩ :=
  ((get_instance_map_cache_hit_independence (fun _ => []) true false
    (fun _ => Except.error "down") (fun _ => Except.ok ())
    ⟨some [("c1-h1", ⟨"c1-h1", "10.0.0.1", "cdh-dn", 0, false, false⟩)], 1⟩
    [("c1-h1", ⟨"c1-h1", "10.0.0.1", "cdh-dn", 0, false, false⟩)]).1 rfl
    (by decide)).2

/-- C9 (code bug): the first `to_runfile` call of a run (runfile absent, mode
`'w'`) succeeds and writes the pairs, but `to_runfile` opens an existing
runfile in read-only mode `'r'` and then calls `json.dump` on that same
handle, so the second and every later call of a run raises IOError instead of
merging into the record. -/
theorem to_runfile_read_mode_raises :
    to_runfile [("cmdline", "pnda-cli create")] none
      = Except.ok [("cmdline", "pnda-cli create")]
    ∧ to_runfile [("bastion", "bastion")] (some [("cmdline", "pnda-cli create")])
      = Except.error "IOError: File not open for writing" :=
  ⟨rfl, rfl⟩

end PndaCli
